import Mathlib

/-!
Verification development for the bonnie-marketing-assistant repository.

Part 1 embeds `src/services/config.ts`: the static `API_CONFIG` table
(parameterised over the process environment), `isConfigured` and
`getMissingConfigs`.

Part 2 embeds the credential registry described by the specification
(`configure`, `testConnection`, `getStatus`, `removeConfiguration`): the
HTTP backend implementing these operations is not part of the checked-in
sources, so those operations are modelled from the specification text,
grounded in the service catalog and required-field tables that do appear
in `src/components/APISettings.tsx`.
-/

namespace Klr

/-- First-match association-list lookup, mirroring how a JavaScript object
maps a key to a value. -/
def alistLookup {α : Type} (l : List (String × α)) (k : String) : Option α :=
  match l with
  | [] => none
  | p :: rest => if p.1 = k then some p.2 else alistLookup rest k

/-! ## Part 1: `src/services/config.ts` -/

/-- `API_CONFIG` from `src/services/config.ts`, as an association list in
declaration order.  Each `process.env.X || chr` read is modelled by applying
the environment `env : String → String`, where an unset variable is the
empty string (which is exactly what `|| ""` collapses it to). -/
def API_CONFIG (env : String → String) : List (String × List (String × String)) :=
  [ ("anthropic",
      [ ("apiKey", env "REACT_APP_ANTHROPIC_API_KEY")
      , ("baseUrl", "https://api.anthropic.com/v1") ])
  , ("openai",
      [ ("apiKey", env "REACT_APP_OPENAI_API_KEY")
      , ("baseUrl", "https://api.openai.com/v1") ])
  , ("instagram",
      [ ("accessToken", env "REACT_APP_INSTAGRAM_ACCESS_TOKEN")
      , ("baseUrl", "https://graph.instagram.com/v17.0") ])
  , ("facebook",
      [ ("accessToken", env "REACT_APP_FACEBOOK_ACCESS_TOKEN")
      , ("baseUrl", "https://graph.facebook.com/v17.0") ])
  , ("twitter",
      [ ("apiKey", env "REACT_APP_TWITTER_API_KEY")
      , ("apiSecret", env "REACT_APP_TWITTER_API_SECRET")
      , ("accessToken", env "REACT_APP_TWITTER_ACCESS_TOKEN")
      , ("accessSecret", env "REACT_APP_TWITTER_ACCESS_SECRET")
      , ("baseUrl", "https://api.twitter.com/2") ])
  , ("tiktok",
      [ ("apiKey", env "REACT_APP_TIKTOK_API_KEY")
      , ("baseUrl", "https://open-api.tiktok.com/v1.3") ])
  , ("threads",
      [ ("accessToken", env "REACT_APP_THREADS_ACCESS_TOKEN")
      , ("baseUrl", "https://graph.threads.net/v1.0") ])
  , ("bluesky",
      [ ("identifier", env "REACT_APP_BLUESKY_IDENTIFIER")
      , ("password", env "REACT_APP_BLUESKY_PASSWORD")
      , ("baseUrl", "https://bsky.social/xrpc") ])
  , ("midjourney",
      [ ("apiKey", env "REACT_APP_MIDJOURNEY_API_KEY")
      , ("baseUrl", "https://api.midjourney.com/v1") ])
  , ("dalle",
      [ ("apiKey", env "REACT_APP_DALL_E_API_KEY")
      , ("baseUrl", "https://api.openai.com/v1") ])
  , ("stability",
      [ ("apiKey", env "REACT_APP_STABILITY_API_KEY")
      , ("baseUrl", "https://api.stability.ai/v1") ])
  , ("ayrshare",
      [ ("apiKey", env "REACT_APP_AYRSHARE_API_KEY")
      , ("baseUrl", "https://app.ayrshare.com/api") ])
  , ("buffer",
      [ ("accessToken", env "REACT_APP_BUFFER_ACCESS_TOKEN")
      , ("baseUrl", "https://api.bufferapp.com/1") ])
  , ("hootsuite",
      [ ("accessToken", env "REACT_APP_HOOTSUITE_ACCESS_TOKEN")
      , ("baseUrl", "https://platform.hootsuite.com/v1") ])
  , ("googleAnalytics",
      [ ("id", env "REACT_APP_GOOGLE_ANALYTICS_ID") ])
  , ("facebookPixel",
      [ ("id", env "REACT_APP_FACEBOOK_PIXEL_ID") ])
  , ("mailchimp",
      [ ("apiKey", env "REACT_APP_MAILCHIMP_API_KEY")
      , ("baseUrl", "https://us1.api.mailchimp.com/3.0") ])
  , ("convertkit",
      [ ("apiKey", env "REACT_APP_CONVERTKIT_API_KEY")
      , ("baseUrl", "https://api.convertkit.com/v3") ])
  , ("amazon",
      [ ("apiKey", env "REACT_APP_AMAZON_API_KEY")
      , ("baseUrl", "https://webservices.amazon.com/paapi5") ])
  , ("bookbub",
      [ ("apiKey", env "REACT_APP_BOOKBUB_API_KEY")
      , ("baseUrl", "https://partners.bookbub.com/api/v1") ])
  ]

/-- `isConfigured` from `src/services/config.ts`:
`Object.values(config).some(value => value !== "")`, with the
`if (!config) return false` guard modelled by the `none` branch. -/
def isConfigured (env : String → String) (service : String) : Bool :=
  match alistLookup (API_CONFIG env) service with
  | none => false
  | some config => config.any (fun p => p.2 != "")

/-- `getMissingConfigs` from `src/services/config.ts`: walk the entries of
`API_CONFIG` in declaration order and collect each service whose values are
all empty. -/
def getMissingConfigs (env : String → String) : List String :=
  ((API_CONFIG env).filter
    (fun p => !(p.2.any (fun q => q.2 != "")))).map Prod.fst

/-! ### Association-list lemmas -/

theorem alistLookup_mem {α : Type} {l : List (String × α)} {k : String} {v : α}
    (h : alistLookup l k = some v) : (k, v) ∈ l := by
  induction l with
  | nil => simp [alistLookup] at h
  | cons p rest ih =>
    by_cases hk : p.1 = k
    · simp only [alistLookup, hk, if_pos, Option.some.injEq] at h
      have hp : p = (k, v) := by
        cases p
        simp only at hk h
        simp [hk, h]
      rw [hp]
      exact List.mem_cons_self _ _
    · simp only [alistLookup, hk, if_neg, not_false_iff] at h
      exact List.mem_cons_of_mem _ (ih h)

theorem alist_key_inj {α : Type} {l : List (String × α)}
    (hnd : (l.map Prod.fst).Nodup) {q r : String × α}
    (hq : q ∈ l) (hr : r ∈ l) (h1 : q.1 = r.1) : q = r := by
  induction l with
  | nil => simp at hq
  | cons hd rest ih =>
    simp only [List.map_cons, List.nodup_cons] at hnd
    rcases List.mem_cons.mp hq with rfl | hq2
    · rcases List.mem_cons.mp hr with rfl | hr2
      · rfl
      · have hm : r.1 ∈ rest.map Prod.fst := List.mem_map_of_mem Prod.fst hr2
        rw [← h1] at hm
        exact absurd hm hnd.1
    · rcases List.mem_cons.mp hr with rfl | hr2
      · have hm : q.1 ∈ rest.map Prod.fst := List.mem_map_of_mem Prod.fst hq2
        rw [h1] at hm
        exact absurd hm hnd.1
      · exact ih hnd.2 hq2 hr2

theorem mem_map_fst_filter_of_nodup {α : Type} {l : List (String × α)}
    (hnd : (l.map Prod.fst).Nodup) {s : String} {cfg : α}
    (hmem : (s, cfg) ∈ l) (p : String × α → Bool) :
    s ∈ (l.filter p).map Prod.fst ↔ p (s, cfg) = true := by
  constructor
  · intro hin
    rcases List.mem_map.mp hin with ⟨q, hq, hq1⟩
    have hqmem : q ∈ l := List.mem_of_mem_filter hq
    have hqp : p q = true := List.of_mem_filter hq
    have hqe : q = (s, cfg) := alist_key_inj hnd hqmem hmem hq1
    exact hqe ▸ hqp
  · intro hp
    exact List.mem_map_of_mem Prod.fst (List.mem_filter.mpr ⟨hmem, hp⟩)

theorem API_CONFIG_keys (env : String → String) :
    (API_CONFIG env).map Prod.fst =
      [ "anthropic", "openai", "instagram", "facebook", "twitter", "tiktok"
      , "threads", "bluesky", "midjourney", "dalle", "stability", "ayrshare"
      , "buffer", "hootsuite", "googleAnalytics", "facebookPixel", "mailchimp"
      , "convertkit", "amazon", "bookbub" ] := rfl

theorem API_CONFIG_keys_nodup (env : String → String) :
    ((API_CONFIG env).map Prod.fst).Nodup := by
  rw [API_CONFIG_keys]
  decide

/-- The environment with every variable unset (`process.env.X` undefined,
collapsed to the empty string by `|| ""`). -/
def emptyEnv : String → String := fun _ => ""

/-- The environment where only the twitter api key variable is set. -/
def twitterOnlyEnv : String → String :=
  fun name => if name = "REACT_APP_TWITTER_API_KEY" then "k" else ""

/-- C9: for every service key of `API_CONFIG`, `isConfigured` returns `true`
exactly when at least one field value of that service entry is a non-empty
string; hence a service with some fields set and others empty is still
reported as configured. -/
theorem isConfigured_iff_some_field_nonempty (env : String → String) (s : String)
    (cfg : List (String × String)) (h : alistLookup (API_CONFIG env) s = some cfg) :
    isConfigured env s = true ↔ ∃ p ∈ cfg, p.2 ≠ "" := by
  unfold isConfigured
  rw [h]
  simp [List.any_eq_true, bne_iff_ne]

/-- C9 witness: with only the twitter api key set (all other twitter fields
empty apart from the constant base url), twitter is reported configured. -/
theorem isConfigured_iff_some_field_nonempty_witness :
    isConfigured twitterOnlyEnv "twitter" = true :=
  (isConfigured_iff_some_field_nonempty twitterOnlyEnv "twitter"
      [ ("apiKey", "k"), ("apiSecret", ""), ("accessToken", "")
      , ("accessSecret", ""), ("baseUrl", "https://api.twitter.com/2") ]
      (by decide)).mpr
    ⟨("apiKey", "k"), by decide, by decide⟩

/-- C10: a service key of `API_CONFIG` appears in `getMissingConfigs` exactly
when `isConfigured` is false for it; the returned list has no duplicates and
is a sublist of the `API_CONFIG` keys in declaration order. -/
theorem getMissingConfigs_spec (env : String → String) :
    (∀ s cfg, alistLookup (API_CONFIG env) s = some cfg →
      (s ∈ getMissingConfigs env ↔ isConfigured env s = false)) ∧
    (getMissingConfigs env).Nodup ∧
    (getMissingConfigs env).Sublist ((API_CONFIG env).map Prod.fst) := by
  refine ⟨?_, ?_, ?_⟩
  · intro s cfg h
    have hmem := alistLookup_mem h
    have hiff := mem_map_fst_filter_of_nodup (API_CONFIG_keys_nodup env) hmem
      (fun p => !(p.2.any (fun q => q.2 != "")))
    unfold getMissingConfigs
    rw [hiff]
    unfold isConfigured
    rw [h]
    simp
  · exact List.Nodup.sublist ((List.filter_sublist _).map Prod.fst)
      (API_CONFIG_keys_nodup env)
  · exact (List.filter_sublist _).map Prod.fst

/-- C10 witness: with every variable unset, googleAnalytics (whose only
field is the environment-supplied id) is missing exactly because it is not
configured. -/
theorem getMissingConfigs_spec_witness :
    ("googleAnalytics" ∈ getMissingConfigs emptyEnv ↔
      isConfigured emptyEnv "googleAnalytics" = false) :=
  (getMissingConfigs_spec emptyEnv).1 "googleAnalytics" [("id", "")] (by decide)

/-! ## Part 2: the credential registry

The HTTP backend implementing `configure`, `testConnection`, `getStatus`
and `removeConfiguration` is not among the checked-in sources (only the
React caller `APISettings.tsx` is), so the operations below are modelled
from the specification text.  The static catalog and the per-service
required-field tables are taken from `serviceCategories` and
`renderAdditionalConfigFields` in `src/components/APISettings.tsx`, which
are in the sources. -/

/-- Status of a ServiceConfiguration (data model of the spec). -/
inductive Status
  | not_configured
  | disconnected
  | connected
  | error
  deriving DecidableEq

/-- Field kinds of a descriptor field spec (text, password, email,
checkbox), as rendered by `renderAdditionalConfigFields`. -/
inductive FieldKind
  | text
  | password
  | email
  | checkbox
  deriving DecidableEq

/-- One field spec of a ServiceDescriptor. -/
structure FieldSpec where
  key : String
  label : String
  kind : FieldKind
  required : Bool
  deriving DecidableEq

/-- A ServiceDescriptor of the static catalog. -/
structure ServiceDescriptor where
  name : String
  category : String
  description : String
  requiredFields : List FieldSpec
  deriving DecidableEq

/-- A persisted ServiceConfiguration: field key to encrypted value, status,
optional last-tested timestamp. -/
structure ServiceConfiguration where
  service : String
  fields : List (String × String)
  status : Status
  lastTestedAt : Option Nat
  deriving DecidableEq

/-- The registry persistence state: at most one record per service name. -/
def RegState : Type := String → Option ServiceConfiguration

/-- The empty store: no service has ever been configured. -/
def emptyState : RegState := fun _ => none

/-- Store or overwrite the record for one service. -/
def setConfig (st : RegState) (service : String) (cfg : ServiceConfiguration) :
    RegState :=
  fun s => if s = service then some cfg else st s

/-- The status the registry reports for a service: the stored status, or
not_configured when no record exists. -/
def statusOf (st : RegState) (service : String) : Status :=
  match st service with
  | some cfg => cfg.status
  | none => Status.not_configured

/-- The primary api key field: the configure dialog in `APISettings.tsx`
always renders a required API Key password input, and its save button is
disabled while that input is empty. -/
def apiKeyField : FieldSpec :=
  { key := "apiKey", label := "API Key", kind := FieldKind.password
  , required := true }

/-- The per-service additional config fields of
`renderAdditionalConfigFields` in `APISettings.tsx` (a field without a
type annotation is text; a field without a required flag is optional). -/
def additionalConfigFields (service : String) : List FieldSpec :=
  match service with
  | "facebook" =>
      [ ⟨"page_id", "Page ID", FieldKind.text, true⟩ ]
  | "instagram" =>
      [ ⟨"business_account_id", "Business Account ID", FieldKind.text, true⟩ ]
  | "twitter" =>
      [ ⟨"api_secret", "API Secret", FieldKind.password, true⟩
      , ⟨"access_token", "Access Token", FieldKind.text, true⟩
      , ⟨"access_secret", "Access Token Secret", FieldKind.password, true⟩ ]
  | "google_analytics" =>
      [ ⟨"measurement_id", "Measurement ID", FieldKind.text, true⟩ ]
  | "amazon_kdp" =>
      [ ⟨"asin", "Book ASIN", FieldKind.text, true⟩ ]
  | "mailchimp" =>
      [ ⟨"audience_id", "Audience ID", FieldKind.text, true⟩ ]
  | "author_email" =>
      [ ⟨"email", "Author Email Address", FieldKind.email, true⟩
      , ⟨"name", "Author Name", FieldKind.text, true⟩ ]
  | "notification_preferences" =>
      [ ⟨"daily_reports", "Daily Reports", FieldKind.checkbox, false⟩
      , ⟨"campaign_alerts", "Campaign Alerts", FieldKind.checkbox, false⟩
      , ⟨"performance_summaries", "Weekly Performance Summaries",
          FieldKind.checkbox, false⟩ ]
  | _ => []

/-- Build one catalog descriptor from its `serviceCategories` entry. -/
def mkDescriptor (name category description : String) : ServiceDescriptor :=
  { name := name, category := category, description := description
  , requiredFields := apiKeyField :: additionalConfigFields name }

/-- The static service catalog: `serviceCategories` of `APISettings.tsx`,
flattened in declaration order. -/
def serviceCatalog : List ServiceDescriptor :=
  [ mkDescriptor "anthropic" "ai_services" "Claude AI for content generation"
  , mkDescriptor "openai" "ai_services" "DALL-E 3 for image generation"
  , mkDescriptor "instagram" "social_media" "Instagram Business API"
  , mkDescriptor "facebook" "social_media" "Facebook Graph API"
  , mkDescriptor "twitter" "social_media" "Twitter API v2"
  , mkDescriptor "tiktok" "social_media" "TikTok for Business API"
  , mkDescriptor "threads" "social_media" "Threads API"
  , mkDescriptor "bluesky" "social_media" "Bluesky API"
  , mkDescriptor "google_analytics" "analytics" "Google Analytics 4"
  , mkDescriptor "facebook_pixel" "analytics" "Facebook Pixel tracking"
  , mkDescriptor "amazon_kdp" "book_platforms" "Amazon KDP sales tracking"
  , mkDescriptor "bookbub" "book_platforms" "BookBub advertising API"
  , mkDescriptor "mailchimp" "email_marketing" "Mailchimp email campaigns"
  , mkDescriptor "convertkit" "email_marketing" "ConvertKit email automation"
  , mkDescriptor "author_email" "author_settings"
      "Author email for reports and notifications"
  , mkDescriptor "notification_preferences" "author_settings"
      "Email notification settings" ]

/-- Find the descriptor of a service name in a catalog. -/
def findDescriptor (catalog : List ServiceDescriptor) (service : String) :
    Option ServiceDescriptor :=
  catalog.find? (fun d => d.name == service)

/-- Modelled from the spec: the symmetric encryption of one field value
under the process-held key (Fernet per the README); any key-tagged scheme
with ciphertext distinct from plaintext realises the properties proved
here. -/
def encrypt (key : String) (v : String) : String := key ++ ":" ++ v

/-- Modelled from the spec: the keys of the required descriptor fields that
are absent from the submitted field mapping or present with an empty value.
Submitted keys that match no descriptor field are never consulted. -/
def missingRequired (desc : ServiceDescriptor)
    (fields : List (String × String)) : List String :=
  (desc.requiredFields.filter (fun f => f.required)).filterMap (fun f =>
    match alistLookup fields f.key with
    | some v => if v = "" then some f.key else none
    | none => some f.key)

/-- Result of a configure call. -/
inductive ConfigureResult
  | ok
  | validationError (missing : List String)
  | unknownService
  deriving DecidableEq

/-- Modelled from the spec: `configure(service, fields)`.  Unknown services
are rejected before any side effect; a missing or empty required field
fails with a validation error naming the missing keys and leaves the store
unchanged; on success every field value is encrypted individually and the
record is persisted with status disconnected and no last-tested timestamp,
overwriting any prior record. -/
def configure (catalog : List ServiceDescriptor) (key : String) (st : RegState)
    (service : String) (fields : List (String × String)) :
    ConfigureResult × RegState :=
  match findDescriptor catalog service with
  | none => (ConfigureResult.unknownService, st)
  | some desc =>
    let missing := missingRequired desc fields
    if missing = [] then
      (ConfigureResult.ok,
        setConfig st service
          { service := service
          , fields := fields.map (fun p => (p.1, encrypt key p.2))
          , status := Status.disconnected
          , lastTestedAt := none })
    else (ConfigureResult.validationError missing, st)

/-- Cause classification of a failed connectivity check. -/
inductive Cause
  | auth
  | network
  | timeout
  | unknown
  deriving DecidableEq

/-- Verdict of one ConnectivityChecker attempt. -/
inductive Verdict
  | ok
  | fail (c : Cause)
  deriving DecidableEq

/-- Result of a testConnection call. -/
inductive TestResult
  | success
  | failure (c : Cause)
  | notConfiguredError
  deriving DecidableEq

/-- Modelled from the spec: `testConnection(service)`.  The injected
ConnectivityChecker is a stream of verdicts consumed at a cursor; a call on
an unconfigured service fails with NotConfiguredError, touching neither the
store nor the cursor.  Otherwise exactly one verdict is consumed (the
cursor advances by one, no automatic retry): a success verdict sets status
connected and records lastTestedAt, a failure verdict sets status error and
returns the classified cause. -/
def testConnection (st : RegState) (service : String)
    (checker : Nat → Verdict) (cursor : Nat) (now : Nat) :
    TestResult × RegState × Nat :=
  match st service with
  | none => (TestResult.notConfiguredError, st, cursor)
  | some cfg =>
    match checker cursor with
    | Verdict.ok =>
        (TestResult.success,
          setConfig st service
            { cfg with status := Status.connected, lastTestedAt := some now },
          cursor + 1)
    | Verdict.fail c =>
        (TestResult.failure c,
          setConfig st service { cfg with status := Status.error },
          cursor + 1)

/-- Modelled from the spec: `removeConfiguration(service)` deletes the
record for the service; removing an absent record is a no-op success. -/
def removeConfiguration (st : RegState) (service : String) : RegState :=
  fun s => if s = service then none else st s

/-- Modelled from the spec: `getStatus()` returns, for every catalog
descriptor, its current status, defaulting to not_configured when no
record exists.  A pure read: it takes the store and returns only the
listing. -/
def getStatus (catalog : List ServiceDescriptor) (st : RegState) :
    List (String × Status) :=
  catalog.map (fun d => (d.name, statusOf st d.name))

/-- One registry operation, for stating trace properties. -/
inductive Op
  | opConfigure (service : String) (fields : List (String × String))
  | opTest (service : String) (now : Nat)
  | opRemove (service : String)

/-- Apply one operation to the store and checker cursor. -/
def applyOp (catalog : List ServiceDescriptor) (key : String)
    (checker : Nat → Verdict) : RegState × Nat → Op → RegState × Nat
  | (st, cursor), Op.opConfigure s f =>
      ((configure catalog key st s f).2, cursor)
  | (st, cursor), Op.opTest s now =>
      ((testConnection st s checker cursor now).2.1,
        (testConnection st s checker cursor now).2.2)
  | (st, cursor), Op.opRemove s => (removeConfiguration st s, cursor)

/-! ### Validation lemmas -/

theorem mem_missingRequired {desc : ServiceDescriptor}
    {fields : List (String × String)} {k : String} :
    k ∈ missingRequired desc fields ↔
      ∃ f ∈ desc.requiredFields, f.required = true ∧ f.key = k ∧
        (alistLookup fields f.key = none ∨
          alistLookup fields f.key = some "") := by
  unfold missingRequired
  rw [List.mem_filterMap]
  constructor
  · rintro ⟨f, hf, hg⟩
    have hf2 := List.mem_filter.mp hf
    refine ⟨f, hf2.1, hf2.2, ?_⟩
    split at hg
    · rename_i v heq
      split at hg
      · rename_i hv
        rw [hv] at heq
        exact ⟨Option.some.inj hg, Or.inr heq⟩
      · exact Option.noConfusion hg
    · rename_i heq
      exact ⟨Option.some.inj hg, Or.inl heq⟩
  · rintro ⟨f, hf, hreq, hkey, hcase⟩
    refine ⟨f, List.mem_filter.mpr ⟨hf, hreq⟩, ?_⟩
    rcases hcase with h1 | h1 <;> rw [h1] <;> simp [hkey]

theorem missingRequired_eq_nil {desc : ServiceDescriptor}
    {fields : List (String × String)} :
    missingRequired desc fields = [] ↔
      ∀ f ∈ desc.requiredFields, f.required = true →
        ∃ v, alistLookup fields f.key = some v ∧ v ≠ "" := by
  rw [List.eq_nil_iff_forall_not_mem]
  constructor
  · intro h f hf hreq
    cases hlk : alistLookup fields f.key with
    | none =>
      exact absurd (mem_missingRequired.mpr ⟨f, hf, hreq, rfl, Or.inl hlk⟩)
        (h f.key)
    | some v =>
      by_cases hv : v = ""
      · subst hv
        exact absurd (mem_missingRequired.mpr ⟨f, hf, hreq, rfl, Or.inr hlk⟩)
          (h f.key)
      · exact ⟨v, rfl, hv⟩
  · intro h k hk
    rcases mem_missingRequired.mp hk with ⟨f, hf, hreq, hkey, hcase⟩
    rcases h f hf hreq with ⟨v, hv, hvne⟩
    rcases hcase with h1 | h1
    · rw [hv] at h1
      exact Option.noConfusion h1
    · rw [hv] at h1
      exact hvne (Option.some.inj h1)

theorem alistLookup_append_ne {α : Type} (fields : List (String × α))
    (k a : String) (v : α) (h : a ≠ k) :
    alistLookup (fields ++ [(k, v)]) a = alistLookup fields a := by
  induction fields with
  | nil => simp [alistLookup, Ne.symm h]
  | cons p rest ih =>
    by_cases hp : p.1 = a
    · simp [alistLookup, hp]
    · simp [alistLookup, hp, ih]

theorem missingRequired_append_unknown {desc : ServiceDescriptor}
    {fields : List (String × String)} {k : String} {v : String}
    (h : ∀ f ∈ desc.requiredFields, f.key ≠ k) :
    missingRequired desc (fields ++ [(k, v)]) =
      missingRequired desc fields := by
  unfold missingRequired
  apply List.filterMap_congr
  intro f hf
  rw [alistLookup_append_ne fields k f.key v
    (h f (List.mem_of_mem_filter hf))]

theorem configure_eq_of_find (catalog : List ServiceDescriptor)
    (key : String) (st : RegState) (service : String)
    (fields : List (String × String)) (desc : ServiceDescriptor)
    (hdesc : findDescriptor catalog service = some desc) :
    configure catalog key st service fields =
      if missingRequired desc fields = [] then
        (ConfigureResult.ok,
          setConfig st service
            { service := service
            , fields := fields.map (fun p => (p.1, encrypt key p.2))
            , status := Status.disconnected
            , lastTestedAt := none })
      else
        (ConfigureResult.validationError (missingRequired desc fields),
          st) := by
  simp only [configure, hdesc]

/-- The twitter descriptor of the static catalog. -/
def twitterDesc : ServiceDescriptor :=
  mkDescriptor "twitter" "social_media" "Twitter API v2"

/-- C1: for every service with a catalog descriptor and every field
mapping, configure succeeds exactly when every required descriptor field
is submitted non-empty; a validation failure names exactly the required
fields that are absent or empty; and a submitted key matching no
descriptor field never changes the outcome. -/
theorem configure_validation (catalog : List ServiceDescriptor) (key : String)
    (st : RegState) (service : String) (fields : List (String × String))
    (desc : ServiceDescriptor)
    (hdesc : findDescriptor catalog service = some desc) :
    ((configure catalog key st service fields).1 = ConfigureResult.ok ↔
      ∀ f ∈ desc.requiredFields, f.required = true →
        ∃ v, alistLookup fields f.key = some v ∧ v ≠ "") ∧
    (∀ ms, (configure catalog key st service fields).1 =
        ConfigureResult.validationError ms →
      ms ≠ [] ∧ ∀ k, k ∈ ms ↔
        ∃ f ∈ desc.requiredFields, f.required = true ∧ f.key = k ∧
          (alistLookup fields f.key = none ∨
            alistLookup fields f.key = some "")) ∧
    (∀ k v, (∀ f ∈ desc.requiredFields, f.key ≠ k) →
      (configure catalog key st service (fields ++ [(k, v)])).1 =
        (configure catalog key st service fields).1) := by
  refine ⟨?_, ?_, ?_⟩
  · rw [configure_eq_of_find catalog key st service fields desc hdesc]
    by_cases hm : missingRequired desc fields = []
    · rw [if_pos hm]
      simpa using missingRequired_eq_nil.mp hm
    · rw [if_neg hm]
      constructor
      · intro habs
        exact ConfigureResult.noConfusion habs
      · intro hall
        exact absurd (missingRequired_eq_nil.mpr hall) hm
  · intro ms hms
    rw [configure_eq_of_find catalog key st service fields desc hdesc] at hms
    by_cases hm : missingRequired desc fields = []
    · rw [if_pos hm] at hms
      exact ConfigureResult.noConfusion hms
    · rw [if_neg hm] at hms
      have hmse : ms = missingRequired desc fields :=
        (ConfigureResult.validationError.inj hms).symm
      subst hmse
      exact ⟨hm, fun k => mem_missingRequired⟩
  · intro k v hk
    rw [configure_eq_of_find catalog key st service (fields ++ [(k, v)])
        desc hdesc,
      configure_eq_of_find catalog key st service fields desc hdesc,
      missingRequired_append_unknown hk]
    by_cases hm : missingRequired desc fields = [] <;> simp [hm]

/-- C1 witness: configuring twitter with an empty api key and no secret
submitted fails naming exactly the absent or empty required fields, while
an extra unknown key changes nothing. -/
theorem configure_validation_witness :
    (configure serviceCatalog "masterkey" emptyState "twitter"
        [("apiKey", "")]).1 =
      ConfigureResult.validationError
        ["apiKey", "api_secret", "access_token", "access_secret"] ∧
    ("api_secret" ∈
        ["apiKey", "api_secret", "access_token", "access_secret"] ↔
      ∃ f ∈ twitterDesc.requiredFields,
        f.required = true ∧ f.key = "api_secret" ∧
        (alistLookup [("apiKey", "")] f.key = none ∨
          alistLookup [("apiKey", "")] f.key = some "")) ∧
    (configure serviceCatalog "masterkey" emptyState "twitter"
        [("apiKey", ""), ("extra_unknown_key", "z")]).1 =
      (configure serviceCatalog "masterkey" emptyState "twitter"
        [("apiKey", "")]).1 := by
  have h := configure_validation serviceCatalog "masterkey" emptyState
    "twitter" [("apiKey", "")] twitterDesc (by decide)
  refine ⟨by decide, ?_, ?_⟩
  · exact (h.2.1 ["apiKey", "api_secret", "access_token", "access_secret"]
      (by decide)).2 "api_secret"
  · exact h.2.2 "extra_unknown_key" "z" (by decide)

/-! ### Store and operation lemmas -/

theorem statusOf_setConfig_self (st : RegState) (service : String)
    (cfg : ServiceConfiguration) :
    statusOf (setConfig st service cfg) service = cfg.status := by
  simp [statusOf, setConfig]

theorem statusOf_setConfig_ne (st : RegState) (s service : String)
    (cfg : ServiceConfiguration) (h : s ≠ service) :
    statusOf (setConfig st service cfg) s = statusOf st s := by
  simp [statusOf, setConfig, h]

theorem configure_unknown_eq (catalog : List ServiceDescriptor)
    (key : String) (st : RegState) (service : String)
    (fields : List (String × String))
    (hfd : findDescriptor catalog service = none) :
    configure catalog key st service fields =
      (ConfigureResult.unknownService, st) := by
  simp only [configure, hfd]

theorem testConnection_none_eq (st : RegState) (service : String)
    (checker : Nat → Verdict) (cursor now : Nat)
    (h : st service = none) :
    testConnection st service checker cursor now =
      (TestResult.notConfiguredError, st, cursor) := by
  simp only [testConnection, h]

theorem testConnection_ok_eq (st : RegState) (service : String)
    (checker : Nat → Verdict) (cursor now : Nat)
    (cfg : ServiceConfiguration) (h : st service = some cfg)
    (hv : checker cursor = Verdict.ok) :
    testConnection st service checker cursor now =
      (TestResult.success,
        setConfig st service
          { cfg with status := Status.connected, lastTestedAt := some now },
        cursor + 1) := by
  simp only [testConnection, h, hv]

theorem testConnection_fail_eq (st : RegState) (service : String)
    (checker : Nat → Verdict) (cursor now : Nat)
    (cfg : ServiceConfiguration) (c : Cause) (h : st service = some cfg)
    (hv : checker cursor = Verdict.fail c) :
    testConnection st service checker cursor now =
      (TestResult.failure c,
        setConfig st service { cfg with status := Status.error },
        cursor + 1) := by
  simp only [testConnection, h, hv]

/-- Sample complete twitter credentials (the concrete scenario of the
spec). -/
def twitterFields : List (String × String) :=
  [ ("apiKey", "k"), ("api_secret", "s"), ("access_token", "t")
  , ("access_secret", "u") ]

/-- The store after successfully configuring twitter on the empty store. -/
def twitterConfiguredState : RegState :=
  (configure serviceCatalog "masterkey" emptyState "twitter"
    twitterFields).2

/-- The record persisted for twitter by that configure call. -/
def twitterStoredCfg : ServiceConfiguration :=
  { service := "twitter"
  , fields :=
      [ ("apiKey", "masterkey:k"), ("api_secret", "masterkey:s")
      , ("access_token", "masterkey:t"), ("access_secret", "masterkey:u") ]
  , status := Status.disconnected
  , lastTestedAt := none }

/-- The store after a successful connectivity test of twitter. -/
def twitterConnectedState : RegState :=
  (testConnection twitterConfiguredState "twitter" (fun _ => Verdict.ok)
    0 42).2.1

/-- C2: a successful configure always leaves the service status
disconnected, never connected; and among all registry operations the only
one that can move a service status to connected is a testConnection of
that service whose checker verdict is ok. -/
theorem configure_then_disconnected (catalog : List ServiceDescriptor)
    (key : String) (checker : Nat → Verdict) (st : RegState) (cursor : Nat)
    (service : String) (fields : List (String × String)) (op : Op) :
    ((configure catalog key st service fields).1 = ConfigureResult.ok →
      statusOf (configure catalog key st service fields).2 service =
        Status.disconnected ∧
      statusOf (configure catalog key st service fields).2 service ≠
        Status.connected) ∧
    (statusOf st service ≠ Status.connected →
      statusOf (applyOp catalog key checker (st, cursor) op).1 service =
        Status.connected →
      ∃ now, op = Op.opTest service now ∧ checker cursor = Verdict.ok) := by
  constructor
  · intro hok
    cases hfd : findDescriptor catalog service with
    | none =>
      rw [configure_unknown_eq catalog key st service fields hfd] at hok
      exact ConfigureResult.noConfusion hok
    | some desc =>
      rw [configure_eq_of_find catalog key st service fields desc hfd]
        at hok ⊢
      by_cases hm : missingRequired desc fields = []
      · rw [if_pos hm] at hok ⊢
        rw [statusOf_setConfig_self]
        exact ⟨rfl, fun habs => Status.noConfusion habs⟩
      · rw [if_neg hm] at hok
        exact ConfigureResult.noConfusion hok
  · intro hne hconn
    cases op with
    | opConfigure s f =>
      exfalso
      simp only [applyOp] at hconn
      cases hfd : findDescriptor catalog s with
      | none =>
        rw [configure_unknown_eq catalog key st s f hfd] at hconn
        exact hne hconn
      | some desc =>
        rw [configure_eq_of_find catalog key st s f desc hfd] at hconn
        by_cases hm : missingRequired desc f = []
        · rw [if_pos hm] at hconn
          by_cases hs : service = s
          · subst hs
            rw [statusOf_setConfig_self] at hconn
            exact Status.noConfusion hconn
          · rw [statusOf_setConfig_ne st service s _ hs] at hconn
            exact hne hconn
        · rw [if_neg hm] at hconn
          exact hne hconn
    | opTest s now =>
      simp only [applyOp] at hconn
      cases hst : st s with
      | none =>
        rw [testConnection_none_eq st s checker cursor now hst] at hconn
        exact absurd hconn hne
      | some cfg =>
        cases hv : checker cursor with
        | ok =>
          by_cases hs : service = s
          · subst hs
            exact ⟨now, rfl, rfl⟩
          · rw [testConnection_ok_eq st s checker cursor now cfg hst hv]
              at hconn
            rw [statusOf_setConfig_ne st service s _ hs] at hconn
            exact absurd hconn hne
        | fail c =>
          rw [testConnection_fail_eq st s checker cursor now cfg c hst hv]
            at hconn
          by_cases hs : service = s
          · subst hs
            rw [statusOf_setConfig_self] at hconn
            exact Status.noConfusion hconn
          · rw [statusOf_setConfig_ne st service s _ hs] at hconn
            exact absurd hconn hne
    | opRemove s =>
      exfalso
      simp only [applyOp] at hconn
      by_cases hs : service = s
      · subst hs
        simp [statusOf, removeConfiguration] at hconn
      · simp only [statusOf, removeConfiguration, if_neg hs] at hconn
        exact hne hconn

/-- C2 witness: reconfiguring an already configured twitter leaves it
disconnected and not connected; and on the configured store the operation
that turns twitter connected is the ok-verdict testConnection. -/
theorem configure_then_disconnected_witness :
    (statusOf (configure serviceCatalog "masterkey" twitterConfiguredState
        "twitter" twitterFields).2 "twitter" = Status.disconnected ∧
      statusOf (configure serviceCatalog "masterkey" twitterConfiguredState
        "twitter" twitterFields).2 "twitter" ≠ Status.connected) ∧
    (∃ now, Op.opTest "twitter" 42 = Op.opTest "twitter" now ∧
      (fun _ => Verdict.ok) 0 = Verdict.ok) := by
  have h := configure_then_disconnected serviceCatalog "masterkey"
    (fun _ => Verdict.ok) twitterConfiguredState 0 "twitter" twitterFields
    (Op.opTest "twitter" 42)
  exact ⟨h.1 (by decide), h.2 (by decide) (by decide)⟩

/-- C3: testConnection on a service with no stored configuration fails
with NotConfiguredError, leaves the store untouched and consumes no
checker verdict. -/
theorem testConnection_unconfigured (st : RegState) (service : String)
    (checker : Nat → Verdict) (cursor now : Nat) (h : st service = none) :
    (testConnection st service checker cursor now).1 =
        TestResult.notConfiguredError ∧
    (testConnection st service checker cursor now).2.1 = st ∧
    (testConnection st service checker cursor now).2.2 = cursor := by
  rw [testConnection_none_eq st service checker cursor now h]
  exact ⟨rfl, rfl, rfl⟩

/-- C3 witness: testing twitter on the empty store reports
NotConfiguredError. -/
theorem testConnection_unconfigured_witness :
    (testConnection emptyState "twitter" (fun _ => Verdict.ok) 0 7).1 =
      TestResult.notConfiguredError :=
  (testConnection_unconfigured emptyState "twitter" (fun _ => Verdict.ok)
    0 7 rfl).1

/-- The last-tested timestamp the registry holds for a service. -/
def lastTestedOf (st : RegState) (service : String) : Option Nat :=
  match st service with
  | some cfg => cfg.lastTestedAt
  | none => none

/-- C4: testConnection on a configured service consumes exactly one
checker verdict per call (the cursor advances by one, no automatic retry);
an ok verdict yields success with status connected and lastTestedAt set to
now; a failure verdict yields a failure carrying its cause, classified as
one of auth, network, timeout, unknown, with status error. -/
theorem testConnection_configured (st : RegState) (service : String)
    (checker : Nat → Verdict) (cursor now : Nat)
    (cfg : ServiceConfiguration) (h : st service = some cfg) :
    (testConnection st service checker cursor now).2.2 = cursor + 1 ∧
    (checker cursor = Verdict.ok →
      (testConnection st service checker cursor now).1 =
          TestResult.success ∧
      statusOf (testConnection st service checker cursor now).2.1 service =
        Status.connected ∧
      lastTestedOf (testConnection st service checker cursor now).2.1
        service = some now) ∧
    (∀ c, checker cursor = Verdict.fail c →
      (testConnection st service checker cursor now).1 =
          TestResult.failure c ∧
      statusOf (testConnection st service checker cursor now).2.1 service =
        Status.error ∧
      (c = Cause.auth ∨ c = Cause.network ∨ c = Cause.timeout ∨
        c = Cause.unknown)) := by
  refine ⟨?_, ?_, ?_⟩
  · cases hv : checker cursor with
    | ok => rw [testConnection_ok_eq st service checker cursor now cfg h hv]
    | fail c =>
      rw [testConnection_fail_eq st service checker cursor now cfg c h hv]
  · intro hv
    rw [testConnection_ok_eq st service checker cursor now cfg h hv]
    refine ⟨rfl, statusOf_setConfig_self st service _, ?_⟩
    simp [lastTestedOf, setConfig]
  · intro c hv
    rw [testConnection_fail_eq st service checker cursor now cfg c h hv]
    refine ⟨rfl, statusOf_setConfig_self st service _, ?_⟩
    cases c
    · exact Or.inl rfl
    · exact Or.inr (Or.inl rfl)
    · exact Or.inr (Or.inr (Or.inl rfl))
    · exact Or.inr (Or.inr (Or.inr rfl))

/-- C4 witness: testing configured twitter with an ok checker advances the
cursor by one, succeeds, and leaves twitter connected with lastTestedAt
recorded. -/
theorem testConnection_configured_witness :
    (testConnection twitterConfiguredState "twitter" (fun _ => Verdict.ok)
        0 42).2.2 = 0 + 1 ∧
    (testConnection twitterConfiguredState "twitter" (fun _ => Verdict.ok)
        0 42).1 = TestResult.success ∧
    statusOf (testConnection twitterConfiguredState "twitter"
        (fun _ => Verdict.ok) 0 42).2.1 "twitter" = Status.connected ∧
    lastTestedOf (testConnection twitterConfiguredState "twitter"
        (fun _ => Verdict.ok) 0 42).2.1 "twitter" = some 42 := by
  have h := testConnection_configured twitterConfiguredState "twitter"
    (fun _ => Verdict.ok) 0 42 twitterStoredCfg (by decide)
  exact ⟨h.1, h.2.1 rfl⟩

/-- C5: a configure call that fails validation leaves the store, hence
every persisted configuration and every status, unchanged. -/
theorem configure_validation_atomic (catalog : List ServiceDescriptor)
    (key : String) (st : RegState) (service : String)
    (fields : List (String × String)) (ms : List String)
    (h : (configure catalog key st service fields).1 =
      ConfigureResult.validationError ms) :
    (configure catalog key st service fields).2 = st := by
  cases hfd : findDescriptor catalog service with
  | none => rw [configure_unknown_eq catalog key st service fields hfd]
  | some desc =>
    rw [configure_eq_of_find catalog key st service fields desc hfd] at h ⊢
    by_cases hm : missingRequired desc fields = []
    · rw [if_pos hm] at h
      exact ConfigureResult.noConfusion h
    · rw [if_neg hm]

/-- C5 witness: after twitter is connected, configuring twitter with an
empty api key fails and the store, including the connected status, is
exactly what it was. -/
theorem configure_validation_atomic_witness :
    (configure serviceCatalog "masterkey" twitterConnectedState "twitter"
        [("apiKey", "")]).2 = twitterConnectedState ∧
    statusOf twitterConnectedState "twitter" = Status.connected := by
  refine ⟨configure_validation_atomic serviceCatalog "masterkey"
    twitterConnectedState "twitter" [("apiKey", "")]
    ["apiKey", "api_secret", "access_token", "access_secret"]
    (by decide), ?_⟩
  decide

/-- The ciphertext of a field value is never the plaintext: the key tag
makes it strictly longer. -/
theorem encrypt_ne_plain (key v : String) : encrypt key v ≠ v := by
  intro h
  have hl := congrArg String.length h
  simp only [encrypt, String.length_append] at hl
  have h1 : (":" : String).length = 1 := rfl
  omega

/-- The anthropic descriptor, head of the static catalog. -/
def anthropicDesc : ServiceDescriptor :=
  mkDescriptor "anthropic" "ai_services" "Claude AI for content generation"

/-- C6: getStatus is a pure read over the store returning exactly one
status per catalog descriptor in catalog order; a service without a stored
record reports not_configured, and on the empty store (before any
configure) every descriptor reports not_configured. -/
theorem getStatus_spec (catalog : List ServiceDescriptor) (st : RegState)
    (d : ServiceDescriptor) (hd : d ∈ catalog) :
    (getStatus catalog st).map Prod.fst =
        catalog.map ServiceDescriptor.name ∧
    (d.name, statusOf st d.name) ∈ getStatus catalog st ∧
    (st d.name = none →
      (d.name, Status.not_configured) ∈ getStatus catalog st) ∧
    (d.name, Status.not_configured) ∈ getStatus catalog emptyState := by
  refine ⟨?_, ?_, ?_, ?_⟩
  · unfold getStatus
    rw [List.map_map]
    rfl
  · exact List.mem_map_of_mem (fun d => (d.name, statusOf st d.name)) hd
  · intro h
    have hm :=
      List.mem_map_of_mem (fun d => (d.name, statusOf st d.name)) hd
    have hs : statusOf st d.name = Status.not_configured := by
      simp [statusOf, h]
    rw [← hs]
    exact hm
  · exact
      List.mem_map_of_mem (fun d => (d.name, statusOf emptyState d.name)) hd

/-- C6 witness: on the empty store the catalog head anthropic reports
not_configured. -/
theorem getStatus_spec_witness :
    (anthropicDesc.name, Status.not_configured) ∈
      getStatus serviceCatalog emptyState :=
  (getStatus_spec serviceCatalog emptyState anthropicDesc
    (List.mem_cons_self _ _)).2.2.2

/-- C7: removeConfiguration deletes the record so the status reverts to
not_configured; removing twice equals removing once; and removing an
absent configuration is a no-op on the store. -/
theorem removeConfiguration_idempotent (st : RegState) (service : String) :
    removeConfiguration (removeConfiguration st service) service =
      removeConfiguration st service ∧
    statusOf (removeConfiguration st service) service =
      Status.not_configured ∧
    (st service = none → removeConfiguration st service = st) := by
  refine ⟨?_, ?_, ?_⟩
  · funext s
    by_cases hs : s = service <;> simp [removeConfiguration, hs]
  · simp [statusOf, removeConfiguration]
  · intro h
    funext s
    by_cases hs : s = service <;> simp [removeConfiguration, hs, h]

/-- C7 witness: removing the absent twitter configuration from the empty
store is a no-op. -/
theorem removeConfiguration_idempotent_witness :
    removeConfiguration emptyState "twitter" = emptyState :=
  (removeConfiguration_idempotent emptyState "twitter").2.2 rfl

/-- C8: reading status metadata back after configure reveals nothing about
the submitted secret values: two successful configures of the same service
with different field values produce identical getStatus listings, and
every value persisted by configure is the encryption of the submitted
value, never the plaintext itself. -/
theorem configure_secrecy (catalog : List ServiceDescriptor) (key : String)
    (st : RegState) (service : String)
    (fields1 fields2 : List (String × String))
    (h1 : (configure catalog key st service fields1).1 =
      ConfigureResult.ok)
    (h2 : (configure catalog key st service fields2).1 =
      ConfigureResult.ok) :
    getStatus catalog (configure catalog key st service fields1).2 =
      getStatus catalog (configure catalog key st service fields2).2 ∧
    (∀ cfg,
      (configure catalog key st service fields1).2 service = some cfg →
      ∀ p ∈ cfg.fields, ∃ q ∈ fields1,
        p = (q.1, encrypt key q.2) ∧ encrypt key q.2 ≠ q.2) := by
  cases hfd : findDescriptor catalog service with
  | none =>
    rw [configure_unknown_eq catalog key st service fields1 hfd] at h1
    exact ConfigureResult.noConfusion h1
  | some desc =>
    rw [configure_eq_of_find catalog key st service fields1 desc hfd]
      at h1 ⊢
    rw [configure_eq_of_find catalog key st service fields2 desc hfd]
      at h2 ⊢
    by_cases hm1 : missingRequired desc fields1 = []
    · by_cases hm2 : missingRequired desc fields2 = []
      · rw [if_pos hm1, if_pos hm2]
        constructor
        · unfold getStatus
          apply List.map_congr_left
          intro d hd
          by_cases hdn : d.name = service
          · rw [hdn, statusOf_setConfig_self, statusOf_setConfig_self]
          · rw [statusOf_setConfig_ne st d.name service _ hdn,
              statusOf_setConfig_ne st d.name service _ hdn]
        · intro cfg hcfg p hp
          simp only [setConfig, if_pos rfl] at hcfg
          have hc : cfg =
              { service := service
              , fields := fields1.map (fun p => (p.1, encrypt key p.2))
              , status := Status.disconnected
              , lastTestedAt := none } := (Option.some.inj hcfg).symm
          subst hc
          simp only at hp
          rcases List.mem_map.mp hp with ⟨q, hq, hq1⟩
          exact ⟨q, hq, hq1.symm, encrypt_ne_plain key q.2⟩
      · rw [if_neg hm2] at h2
        exact ConfigureResult.noConfusion h2
    · rw [if_neg hm1] at h1
      exact ConfigureResult.noConfusion h1

/-- C8 witness: configuring twitter with secret api key abc123 and with
the sample credentials yields byte-identical status listings. -/
theorem configure_secrecy_witness :
    getStatus serviceCatalog (configure serviceCatalog "masterkey"
        emptyState "twitter"
        [ ("apiKey", "abc123"), ("api_secret", "s2")
        , ("access_token", "t2"), ("access_secret", "u2") ]).2 =
      getStatus serviceCatalog (configure serviceCatalog "masterkey"
        emptyState "twitter" twitterFields).2 :=
  (configure_secrecy serviceCatalog "masterkey" emptyState "twitter"
    [ ("apiKey", "abc123"), ("api_secret", "s2")
    , ("access_token", "t2"), ("access_secret", "u2") ]
    twitterFields (by decide) (by decide)).1

end Klr
